import Mathlib

/-!
Verification of the mshadow tensor-expression engine
(`src/mshadow/tensor_expr_engine-inl.hpp`) against its specification.

The embedding is shallow: C++ template classes become Lean inductive types,
member functions become structural recursions, and the element type `real_t`
is an abstract type parameter `α` (instantiated with `Int` in concrete
witnesses).  Machinery that the spec declares out of scope (the tensor
container, the per-coordinate executor `MapPlan`, the BLAS backend) is either
modelled from the spec where a claim needs it, or represented by a record of
the arguments handed to it (`GemmCall`).
-/

namespace mshadow

/-- Device tag: the compute target a tensor lives on (`cpu` / `gpu` structs
in the source). -/
inductive Device where
  | cpu
  | gpu
deriving DecidableEq, Repr

/-- Shape descriptor of a rank-2 tensor: the two extents `shape_[0]`,
`shape_[1]` and the row pitch `stride_` of the underlying buffer
(mirrors `Shape<2>` from the out-of-scope container, which the engine
consumes: per-dimension extents plus a row stride). -/
structure Shape2 where
  s0 : Nat
  s1 : Nat
  stride_ : Nat
deriving DecidableEq, Repr

/-- Tensor view (mirrors `Tensor<Device,dim>` at rank 2 as the engine
consumes it): a base buffer `dptr` (modelled as a total function over flat
indices) and a shape descriptor. -/
structure Tensor2 (α : Type) where
  dptr : Nat → α
  shape : Shape2

/-- Rank-1 tensor view (`Tensor<Device,1>` / `CTensor1D`, `GTensor1D`),
needed only by the placeholder dot-engine specializations. -/
structure Tensor1 (α : Type) where
  dptr : Nat → α
  len : Nat

namespace expr

/-- Expression tree (mirrors the node kinds of `tensor_expr.h` as the engine
consumes them): scalar constant `ScalarExp`, tensor-reference leaf
`Tensor<Device,dim>` (the leaf carries its static device and rank tags),
`UnaryMapExp` and `BinaryMapExp` whose operator tags `OP::Map` become the
carried functions. -/
inductive Expr (α : Type) where
  | scalar (scalar_ : α)
  | tensor (dev : Device) (dim : Nat) (t : Tensor2 α)
  | unaryMap (op : α → α) (src_ : Expr α)
  | binaryMap (op : α → α → α) (lhs_ rhs_ : Expr α)

/-- Compiled plan tree (mirrors the `Plan<...>` specializations, lines
31-78): a tensor leaf captures `(dptr_, stride_)`, a scalar captures its
constant, map nodes capture their operand plans. -/
inductive Plan (α : Type) where
  | tensor (dptr_ : Nat → α) (stride_ : Nat)
  | scalar (scalar_ : α)
  | unary (op : α → α) (src_ : Plan α)
  | binary (op : α → α → α) (lhs_ rhs_ : Plan α)

/-- `Plan::Eval(y,x)` (lines 36-37, 49-50, 61-62, 73-74): a tensor plan
returns `dptr_[y*stride_+x]`, a scalar plan returns its constant, map plans
evaluate operands at the same coordinate and apply the operator. -/
def Plan.Eval {α : Type} : Plan α → Nat → Nat → α
  | .tensor d s, y, x => d (y * s + x)
  | .scalar c, _, _ => c
  | .unary op p, y, x => op (p.Eval y x)
  | .binary op l r, y, x => op (l.Eval y x) (r.Eval y x)

/-- `MakePlan` (lines 85-102): structural translation from an expression to
its plan; the `ContainerExp` overload (line 90-92) binds a tensor leaf to its
`(dptr, stride_)`. -/
def MakePlan {α : Type} : Expr α → Plan α
  | .scalar s => .scalar s
  | .tensor _ _ t => .tensor t.dptr t.shape.stride_
  | .unaryMap op e => .unary op (MakePlan e)
  | .binaryMap op l r => .binary op (MakePlan l) (MakePlan r)

/-- Modelled from the spec (section 4.3): the structural recursive denotation
of an elementwise expression at a coordinate — a tensor leaf yields
`base[y*stride + x]`, a scalar yields its constant, a unary map applies its
operator to its operand's value, a binary map applies its operator to both
operands' values. -/
def denote {α : Type} : Expr α → Nat → Nat → α
  | .scalar s, _, _ => s
  | .tensor _ _ t, y, x => t.dptr (y * t.shape.stride_ + x)
  | .unaryMap op e, y, x => op (denote e y x)
  | .binaryMap op l r, y, x => op (denote l y x) (denote r y x)

/-- `TypeCheck<Device,dim,E>::kPass` (lines 113-133): the generic template
says `false`; the `ScalarExp` specialization says `true`; the
`Tensor<Device,dim>` specialization matches only when the leaf's device and
rank are the target's, so a leaf passes exactly when both tags agree; a
unary map passes when its operand does; a binary map when both operands do. -/
def TypeCheck {α : Type} (dev : Device) (dim : Nat) : Expr α → Bool
  | .scalar _ => true
  | .tensor d n _ => decide (d = dev) && decide (n = dim)
  | .unaryMap _ e => TypeCheck dev dim e
  | .binaryMap _ l r => TypeCheck dev dim l && TypeCheck dev dim r

/-- Modelled from the spec (section 4.2): the static device/rank fold — a
scalar always passes, a leaf passes iff its device and rank match the
target, a unary map iff its operand passes, a binary map iff both pass. -/
def TypeCheckFold {α : Type} (dev : Device) (dim : Nat) : Expr α → Prop
  | .scalar _ => True
  | .tensor d n _ => d = dev ∧ n = dim
  | .unaryMap _ e => TypeCheckFold dev dim e
  | .binaryMap _ l r => TypeCheckFold dev dim l ∧ TypeCheckFold dev dim r

/-- `ShapeCheck<dim>::Check` (lines 145-164): a scalar is always consistent;
a tensor leaf checks `t.shape == shape`; map nodes recurse. -/
def ShapeCheck {α : Type} : Expr α → Shape2 → Bool
  | .scalar _, _ => true
  | .tensor _ _ t, shape => decide (t.shape = shape)
  | .unaryMap _ e, shape => ShapeCheck e shape
  | .binaryMap _ l r, shape => ShapeCheck l shape && ShapeCheck r shape

/-- Modelled from the spec (section 4.2): the runtime shape walk — a scalar
trivially matches, a leaf matches iff its shape equals the destination's,
a unary map iff its operand matches, a binary map iff both match. -/
def ShapeFold {α : Type} : Expr α → Shape2 → Prop
  | .scalar _, _ => True
  | .tensor _ _ t, shape => t.shape = shape
  | .unaryMap _ e, shape => ShapeFold e shape
  | .binaryMap _ l r, shape => ShapeFold l shape ∧ ShapeFold r shape

/-- Some tensor leaf of the expression has a shape differing from `shape`
(the situation claim C4 quantifies over). -/
def hasMismatchedLeaf {α : Type} : Expr α → Shape2 → Prop
  | .scalar _, _ => False
  | .tensor _ _ t, shape => t.shape ≠ shape
  | .unaryMap _ e, shape => hasMismatchedLeaf e shape
  | .binaryMap _ l r, shape => hasMismatchedLeaf l shape ∨ hasMismatchedLeaf r shape

/-- Runtime error class of the engine: the shape-consistency assertion
(`utils::Assert` at lines 179/187, called `IncompatibleShape` by the spec). -/
inductive EvalError where
  | incompatibleShape
deriving DecidableEq, Repr

/-- Modelled from the spec (sections 4.4 and 6): the external per-coordinate
executor `MapPlan` handed the compiled plan at line 180/188 — it visits every
destination coordinate `(y,x)` (`y < shape.s1`, `x < shape.s0`) and writes
`saver (dst[y][x]) (plan.Eval y x)` at flat position `y*stride_ + x`,
touching nothing else. -/
def MapPlan {α : Type} (saver : α → α → α) (dst : Tensor2 α) (p : Plan α) :
    Tensor2 α :=
  { dst with
    dptr := fun i =>
      if i % dst.shape.stride_ < dst.shape.s0 ∧ i / dst.shape.stride_ < dst.shape.s1
      then saver (dst.dptr i) (p.Eval (i / dst.shape.stride_) (i % dst.shape.stride_))
      else dst.dptr i }

/-- Modelled from the spec (section 6): the direct-assignment saver policy
(overwrite the destination element with the computed value). -/
def SaveTo {α : Type} (_old v : α) : α := v

/-- `ExpEngine<SV,Tensor<Device,dim>>::Eval` for a `kMapper` expression
(lines 175-182): after the static type check (a no-op when it compiles), it
asserts `ShapeCheck(exp, dst.shape)` — on failure the call aborts with the
shape error and the destination is untouched — and otherwise hands
`MakePlan(exp)` to `MapPlan`.  The pair returned is (destination after the
call, error raised if any). -/
def EvalMapper {α : Type} (saver : α → α → α) (dst : Tensor2 α) (e : Expr α) :
    Tensor2 α × Option EvalError :=
  if ShapeCheck e dst.shape
  then (MapPlan saver dst (MakePlan e), none)
  else (dst, some .incompatibleShape)

/-- `ExpEngine<SV,Tensor<Device,dim>>::Eval` for a `kContainer` expression
(lines 183-189), instantiated at a bare tensor reference: the shape check
specializes to `t.shape == dst.shape` and `MakePlan` (via the
`ContainerExp` overload, lines 90-92) to the leaf plan bound to
`(t.dptr, t.shape.stride_)`. -/
def EvalContainer {α : Type} (saver : α → α → α) (dst : Tensor2 α)
    (t : Tensor2 α) : Tensor2 α × Option EvalError :=
  if decide (t.shape = dst.shape)
  then (MapPlan saver dst (Plan.tensor t.dptr t.shape.stride_), none)
  else (dst, some .incompatibleShape)

/-- Storage layout directive passed to the BLAS backend (`CblasColMajor` /
`CblasRowMajor`). -/
inductive Layout where
  | colMajor
  | rowMajor
deriving DecidableEq, Repr

/-- Transpose directive passed to the BLAS backend (`CblasTrans` /
`CblasNoTrans`). -/
inductive Transpose where
  | trans
  | noTrans
deriving DecidableEq, Repr

/-- Record of one invocation of the out-of-scope general matrix-multiply
backend `cblas_sgemm(layout, transA, transB, M, N, K, alpha, A, lda, B, ldb,
beta, C, ldc)`: the engine's entire observable interaction with it. -/
structure GemmCall (α : Type) where
  layout : Layout
  transA : Transpose
  transB : Transpose
  M : Nat
  N : Nat
  K : Nat
  alpha : α
  lda : Nat
  ldb : Nat
  beta : α
  ldc : Nat

/-- `DotEngine<cpu,2,2,2,ltrans,rtrans>::Eval` (lines 197-221): computes the
transpose directives from the flags, the extents
`M = ltrans ? lhs.shape[1] : lhs.shape[0]`,
`K = ltrans ? lhs.shape[0] : lhs.shape[1]`,
`N = rtrans ? rhs.shape[0] : rhs.shape[1]`, the leading dimensions
`LDA = ltrans ? lhs.shape[1] : lhs.shape[0]`,
`LDB = rtrans ? rhs.shape[1] : rhs.shape[0]`, and calls `cblas_sgemm` with
column-major layout, `scale` as the multiply coefficient, literal `0` as the
accumulate coefficient, and `LDA` again as the destination leading
dimension. -/
def DotEngineCpu222Eval {α : Type} [Zero α] (ltrans rtrans : Bool)
    (_dst lhs rhs : Tensor2 α) (scale : α) : GemmCall α :=
  let op_lhs := if ltrans then Transpose.trans else Transpose.noTrans
  let op_rhs := if rtrans then Transpose.trans else Transpose.noTrans
  let M := if ltrans then lhs.shape.s1 else lhs.shape.s0
  let K := if ltrans then lhs.shape.s0 else lhs.shape.s1
  let N := if rtrans then rhs.shape.s0 else rhs.shape.s1
  let LDA := if ltrans then lhs.shape.s1 else lhs.shape.s0
  let LDB := if rtrans then rhs.shape.s1 else rhs.shape.s0
  { layout := .colMajor, transA := op_lhs, transB := op_rhs,
    M := M, N := N, K := K, alpha := scale,
    lda := LDA, ldb := LDB, beta := 0, ldc := LDA }

/-- Row count of an operand before any transpose is applied, in the source's
own convention: the comment at line 203 labels `lhs.shape[0]` the row extent
of the un-transposed operand (`op(lhs) row` with `ltrans` clear). -/
def untransposedRows {α : Type} (t : Tensor2 α) : Nat := t.shape.s0

/-- Column count of an operand before any transpose is applied (line 204:
`lhs.shape[1]` is `op(lhs) col` with `ltrans` clear). -/
def untransposedCols {α : Type} (t : Tensor2 α) : Nat := t.shape.s1

/-- Row count of `op(t)`: the operand's row count, with rows and columns
swapped exactly when its transpose flag is set. -/
def opRows {α : Type} (flag : Bool) (t : Tensor2 α) : Nat :=
  if flag then untransposedCols t else untransposedRows t

/-- Column count of `op(t)`: the operand's column count, with rows and
columns swapped exactly when its transpose flag is set. -/
def opCols {α : Type} (flag : Bool) (t : Tensor2 α) : Nat :=
  if flag then untransposedRows t else untransposedCols t

/-- Observable outcome of one placeholder dot-engine body: the destination
tensor after the call, whether any backend routine was invoked, and whether
the call aborted fatally. -/
structure PlaceholderOutcome (σ : Type) where
  dst : σ
  backendInvoked : Bool
  fatal : Bool
deriving Repr

/-- `DotEngine<cpu,1,1,2,false,rtrans>::Eval` (lines 222-231): the body
computes `op_rhs` from the flag and then does nothing — no backend call, no
assertion, no write to `dst`. -/
def DotEngineCpu112Eval {α : Type} (rtrans : Bool) (dst _lhs : Tensor1 α)
    (_rhs : Tensor2 α) (_scale : α) : PlaceholderOutcome (Tensor1 α) :=
  let _op_rhs := if rtrans then Transpose.trans else Transpose.noTrans
  { dst := dst, backendInvoked := false, fatal := false }

/-- `DotEngine<cpu,2,1,1,true,false>::Eval` (lines 232-238): empty body. -/
def DotEngineCpu211Eval {α : Type} (dst : Tensor2 α) (_lhs _rhs : Tensor1 α)
    (_scale : α) : PlaceholderOutcome (Tensor2 α) :=
  { dst := dst, backendInvoked := false, fatal := false }

/-- `DotEngine<gpu,2,2,2,ltrans,rtrans>::Eval` (lines 240-246): empty body. -/
def DotEngineGpu222Eval {α : Type} (_ltrans _rtrans : Bool)
    (dst _lhs _rhs : Tensor2 α) (_scale : α) : PlaceholderOutcome (Tensor2 α) :=
  { dst := dst, backendInvoked := false, fatal := false }

/-- `DotEngine<gpu,1,1,2,false,rtrans>::Eval` (lines 247-252): empty body. -/
def DotEngineGpu112Eval {α : Type} (_rtrans : Bool) (dst _lhs : Tensor1 α)
    (_rhs : Tensor2 α) (_scale : α) : PlaceholderOutcome (Tensor1 α) :=
  { dst := dst, backendInvoked := false, fatal := false }

/-- `DotEngine<gpu,2,1,1,true,false>::Eval` (lines 253-258): empty body. -/
def DotEngineGpu211Eval {α : Type} (dst : Tensor2 α) (_lhs _rhs : Tensor1 α)
    (_scale : α) : PlaceholderOutcome (Tensor2 α) :=
  { dst := dst, backendInvoked := false, fatal := false }

/-- `DotExp<TA,TB,ltrans,rtrans>` as the engine consumes it (line 191): the
two tensor operands `lhs_`, `rhs_`, the scale factor `scale_`, and the two
static transpose flags. -/
structure DotExp (α : Type) where
  ltrans : Bool
  rtrans : Bool
  lhs_ : Tensor2 α
  rhs_ : Tensor2 α
  scale_ : α

/-- `ExpEngine<SV,Tensor<Device,dim>>::Eval` for a `DotExp` (lines 190-193),
at the fully specified cpu 2,2,2 instantiation: the body is a single forward
`DotEngine<...>::Eval(dst, exp.lhs_, exp.rhs_, exp.scale_)` — no shape
assertion, no plan, never an error. -/
def EvalDot {α : Type} [Zero α] (dst : Tensor2 α) (e : DotExp α) :
    GemmCall α × Option EvalError :=
  (DotEngineCpu222Eval e.ltrans e.rtrans dst e.lhs_ e.rhs_ e.scale_, none)

/-- Two plans with identical structure, operators and bindings whose tensor
leaves read pointwise-equal underlying buffers: the relation that makes
"unchanged underlying buffers" precise for claim C9. -/
inductive Plan.BufEq {α : Type} : Plan α → Plan α → Prop
  | tensor {d d' : Nat → α} {s : Nat} :
      (∀ i, d i = d' i) → Plan.BufEq (.tensor d s) (.tensor d' s)
  | scalar {c : α} : Plan.BufEq (.scalar c) (.scalar c)
  | unary {op : α → α} {p q : Plan α} :
      Plan.BufEq p q → Plan.BufEq (.unary op p) (.unary op q)
  | binary {op : α → α → α} {l l' r r' : Plan α} :
      Plan.BufEq l l' → Plan.BufEq r r' →
      Plan.BufEq (.binary op l r) (.binary op l' r')

/-! Concrete inputs used by the closed witness and counterexample theorems. -/

/-- Concrete 2x2 source tensor over `Int`. -/
def aW : Tensor2 Int :=
  { dptr := fun i => Int.ofNat i, shape := { s0 := 2, s1 := 2, stride_ := 2 } }

/-- Concrete 2x2 destination tensor. -/
def dstW : Tensor2 Int :=
  { dptr := fun _ => 0, shape := { s0 := 2, s1 := 2, stride_ := 2 } }

/-- Concrete well-typed elementwise expression `a + (3 * 2)`. -/
def eW : Expr Int :=
  .binaryMap (fun a b => a + b) (.tensor .cpu 2 aW)
    (.unaryMap (fun a => a * 2) (.scalar 3))

/-- Destination of shape (3 rows, 4 columns), the spec's mismatch scenario. -/
def dst34W : Tensor2 Int :=
  { dptr := fun _ => 0, shape := { s0 := 4, s1 := 3, stride_ := 4 } }

/-- Operand of shape (3 rows, 5 columns), incompatible with `dst34W`. -/
def t35W : Tensor2 Int :=
  { dptr := fun _ => 1, shape := { s0 := 5, s1 := 3, stride_ := 5 } }

/-- Elementwise expression containing the mismatched leaf `t35W`. -/
def e4W : Expr Int :=
  .binaryMap (fun a b => a + b) (.tensor .cpu 2 t35W) (.scalar 2)

/-- Non-square left operand (`shape_[0] = 2`, `shape_[1] = 3`) for the
leading-dimension counterexample. -/
def lhs23W : Tensor2 Int :=
  { dptr := fun _ => 0, shape := { s0 := 2, s1 := 3, stride_ := 2 } }

/-- Right operand for the leading-dimension counterexample. -/
def rhs34W : Tensor2 Int :=
  { dptr := fun _ => 0, shape := { s0 := 3, s1 := 4, stride_ := 3 } }

/-- Destination for the leading-dimension counterexample. -/
def dstDW : Tensor2 Int :=
  { dptr := fun _ => 0, shape := { s0 := 3, s1 := 4, stride_ := 3 } }

/-- Concrete rank-1 tensor for invoking the placeholder dot engines. -/
def v1W : Tensor1 Int := { dptr := fun i => Int.ofNat i, len := 3 }

/-- Concrete rank-2 tensor for invoking the placeholder dot engines. -/
def m1W : Tensor2 Int :=
  { dptr := fun i => Int.ofNat i, shape := { s0 := 3, s1 := 3, stride_ := 3 } }

/-- A leaf plan whose buffer is written one way. -/
def pW : Plan Int := Plan.tensor (fun i => Int.ofNat i + 0) 3

/-- The same leaf plan with the buffer written another, pointwise-equal
way. -/
def qW : Plan Int := Plan.tensor (fun i => Int.ofNat i) 3

/-! Helper lemmas shared by the claim theorems. -/

/-- The compiled plan of an expression evaluates, at every coordinate, to the
structural recursive denotation of the expression. -/
theorem MakePlan_Eval_eq_denote {α : Type} (e : Expr α) (y x : Nat) :
    (MakePlan e).Eval y x = denote e y x := by
  induction e with
  | scalar s => rfl
  | tensor d n t => rfl
  | unaryMap op e ih => simp [MakePlan, Plan.Eval, denote, ih]
  | binaryMap op l r ihl ihr => simp [MakePlan, Plan.Eval, denote, ihl, ihr]

/-- An expression containing a shape-mismatched tensor leaf fails the
engine's runtime shape check. -/
theorem ShapeCheck_false_of_mismatch {α : Type} (e : Expr α) (s : Shape2)
    (h : hasMismatchedLeaf e s) : ShapeCheck e s = false := by
  induction e with
  | scalar c => exact absurd h (by simp [hasMismatchedLeaf])
  | tensor d n t =>
      have ht : t.shape ≠ s := h
      simp [ShapeCheck, ht]
  | unaryMap op e ih => exact ih h
  | binaryMap op l r ihl ihr =>
      cases h with
      | inl hl => simp [ShapeCheck, ihl hl]
      | inr hr => simp [ShapeCheck, ihr hr]

/-! Claim theorems. -/

/-- Claim C1: for every elementwise expression, the plan produced by
`MakePlan`, evaluated at any coordinate `(y,x)`, equals the structural
recursive denotation of the expression (tensor leaf: `base[y*stride+x]`;
scalar: its constant; unary map: operator applied to the operand's value;
binary map: operator applied to both operands' values) — and `MapPlan`
therefore writes exactly these values at every in-range destination
coordinate. -/
theorem plan_eval_eq_recursive_denotation {α : Type} (e : Expr α)
    (y x : Nat) (dst : Tensor2 α)
    (hx : x < dst.shape.s0) (hy : y < dst.shape.s1)
    (hs : dst.shape.s0 ≤ dst.shape.stride_) :
    (MakePlan e).Eval y x = denote e y x ∧
    (MapPlan SaveTo dst (MakePlan e)).dptr (y * dst.shape.stride_ + x) =
      denote e y x := by
  have hx' : x < dst.shape.stride_ := lt_of_lt_of_le hx hs
  have hpos : 0 < dst.shape.stride_ := lt_of_le_of_lt (Nat.zero_le x) hx'
  have hmod : (y * dst.shape.stride_ + x) % dst.shape.stride_ = x := by
    rw [Nat.mul_comm, Nat.mul_add_mod]
    exact Nat.mod_eq_of_lt hx'
  have hdiv : (y * dst.shape.stride_ + x) / dst.shape.stride_ = y := by
    rw [Nat.mul_comm, Nat.mul_add_div hpos, Nat.div_eq_of_lt hx']
    exact Nat.add_zero y
  refine ⟨MakePlan_Eval_eq_denote e y x, ?_⟩
  unfold MapPlan
  simp only [hmod, hdiv]
  rw [if_pos ⟨hx, hy⟩]
  simpa [SaveTo] using MakePlan_Eval_eq_denote e y x

/-- Witness for claim C1 at a concrete expression, destination and
coordinate. -/
theorem plan_eval_eq_recursive_denotation_witness :
    (0 < dstW.shape.s0 ∧ 1 < dstW.shape.s1 ∧
      dstW.shape.s0 ≤ dstW.shape.stride_) ∧
    ((MakePlan eW).Eval 1 0 = denote eW 1 0 ∧
      (MapPlan SaveTo dstW (MakePlan eW)).dptr (1 * dstW.shape.stride_ + 0) =
        denote eW 1 0) :=
  ⟨by decide,
    plan_eval_eq_recursive_denotation eW 1 0 dstW (by decide) (by decide)
      (by decide)⟩

/-- Claim C2: the host-CPU matrix-matrix dot kernel calls the backend
matrix-multiply with column-major layout, transpose directives equal to the
flags, extents `M`/`K` obtained from the left operand's row/column counts
swapped exactly when `ltrans` is set and `N` from the right operand's column
count swapped exactly when `rtrans` is set, the scale as the multiply
coefficient, and zero as the accumulate coefficient. -/
theorem dot_cpu222_gemm_arguments {α : Type} [Zero α]
    (ltrans rtrans : Bool) (dst lhs rhs : Tensor2 α) (scale : α) :
    (DotEngineCpu222Eval ltrans rtrans dst lhs rhs scale).layout =
        Layout.colMajor ∧
    (DotEngineCpu222Eval ltrans rtrans dst lhs rhs scale).transA =
        (if ltrans then Transpose.trans else Transpose.noTrans) ∧
    (DotEngineCpu222Eval ltrans rtrans dst lhs rhs scale).transB =
        (if rtrans then Transpose.trans else Transpose.noTrans) ∧
    (DotEngineCpu222Eval ltrans rtrans dst lhs rhs scale).M =
        opRows ltrans lhs ∧
    (DotEngineCpu222Eval ltrans rtrans dst lhs rhs scale).K =
        opCols ltrans lhs ∧
    (DotEngineCpu222Eval ltrans rtrans dst lhs rhs scale).N =
        opCols rtrans rhs ∧
    (DotEngineCpu222Eval ltrans rtrans dst lhs rhs scale).alpha = scale ∧
    (DotEngineCpu222Eval ltrans rtrans dst lhs rhs scale).beta = 0 := by
  cases ltrans <;> cases rtrans <;>
    simp [DotEngineCpu222Eval, opRows, opCols, untransposedRows,
      untransposedCols]

/-- Claim C3 evaluation: every placeholder dot-engine specialization (CPU
vector-matrix, CPU vector-vector, and the three accelerator forms), invoked
at concrete inputs, returns silently — destination unchanged, no backend
invoked, no fatal abort — contradicting the required fail-loudly
behaviour. -/
theorem dot_placeholders_return_silently :
    DotEngineCpu112Eval false v1W v1W m1W (1 : Int) =
      { dst := v1W, backendInvoked := false, fatal := false } ∧
    DotEngineCpu211Eval m1W v1W v1W (1 : Int) =
      { dst := m1W, backendInvoked := false, fatal := false } ∧
    DotEngineGpu222Eval false true m1W m1W m1W (1 : Int) =
      { dst := m1W, backendInvoked := false, fatal := false } ∧
    DotEngineGpu112Eval true v1W v1W m1W (1 : Int) =
      { dst := v1W, backendInvoked := false, fatal := false } ∧
    DotEngineGpu211Eval m1W v1W v1W (1 : Int) =
      { dst := m1W, backendInvoked := false, fatal := false } :=
  ⟨rfl, rfl, rfl, rfl, rfl⟩

/-- Claim C4: if some tensor leaf's shape differs from the destination's
shape, the elementwise `Eval` raises the incompatible-shape error and
returns the destination unchanged, with no plan execution. -/
theorem shape_mismatch_aborts_before_write {α : Type} (saver : α → α → α)
    (dst : Tensor2 α) (e : Expr α) (h : hasMismatchedLeaf e dst.shape) :
    EvalMapper saver dst e = (dst, some EvalError.incompatibleShape) := by
  unfold EvalMapper
  rw [ShapeCheck_false_of_mismatch e dst.shape h]
  simp

/-- Witness for claim C4 at the spec's concrete scenario: destination shape
(3,4), operand shape (3,5). -/
theorem shape_mismatch_aborts_before_write_witness :
    hasMismatchedLeaf e4W dst34W.shape ∧
    EvalMapper SaveTo dst34W e4W =
      (dst34W, some EvalError.incompatibleShape) := by
  have h : hasMismatchedLeaf e4W dst34W.shape := by
    show t35W.shape ≠ dst34W.shape ∨ False
    exact Or.inl (by decide)
  exact ⟨h, shape_mismatch_aborts_before_write SaveTo dst34W e4W h⟩

/-- Counterexample to claim C5: the leading-dimension argument is not a
function of the operand's un-transposed row extent alone — with the left
operand `lhs23W` it is 2 when `ltrans` is clear and 3 when `ltrans` is set,
and in the transposed call it differs from the operand's un-transposed row
extent. -/
theorem lda_not_untransposed_rows_counterexample :
    (DotEngineCpu222Eval true false dstDW lhs23W rhs34W (1 : Int)).lda ≠
      untransposedRows lhs23W ∧
    (DotEngineCpu222Eval true false dstDW lhs23W rhs34W (1 : Int)).lda ≠
      (DotEngineCpu222Eval false false dstDW lhs23W rhs34W (1 : Int)).lda := by
  decide

/-- Claim C5 amended: the leading-dimension arguments equal each operand's
post-transpose (effective operation) row extent — the un-transposed row
extent when the operand's flag is clear, and the un-transposed column
extent when its flag is set. -/
theorem lda_ldb_eq_post_transpose_rows {α : Type} [Zero α]
    (ltrans rtrans : Bool) (dst lhs rhs : Tensor2 α) (scale : α) :
    (DotEngineCpu222Eval ltrans rtrans dst lhs rhs scale).lda =
      opRows ltrans lhs ∧
    (DotEngineCpu222Eval ltrans rtrans dst lhs rhs scale).ldb =
      opRows rtrans rhs := by
  cases ltrans <;> cases rtrans <;>
    simp [DotEngineCpu222Eval, opRows, untransposedRows, untransposedCols]

/-- Claim C6: the static device/rank check is exactly the structural fold
the spec defines — scalar passes, a leaf passes iff its device and rank
equal the target's, a unary map iff its operand passes, a binary map iff
both operands pass. -/
theorem typecheck_eq_spec_fold {α : Type} (dev : Device) (dim : Nat)
    (e : Expr α) : TypeCheck dev dim e = true ↔ TypeCheckFold dev dim e := by
  induction e with
  | scalar s => simp [TypeCheck, TypeCheckFold]
  | tensor d n t => simp [TypeCheck, TypeCheckFold]
  | unaryMap op e ih => simpa [TypeCheck, TypeCheckFold] using ih
  | binaryMap op l r ihl ihr => simp [TypeCheck, TypeCheckFold, ihl, ihr]

/-- Claim C7: the runtime shape check is exactly the structural recursion
the spec defines — scalar trivially matches, a leaf matches iff its shape
equals the destination's, a unary map iff its operand matches, a binary map
iff both operands match. -/
theorem shapecheck_eq_spec_fold {α : Type} (e : Expr α) (s : Shape2) :
    ShapeCheck e s = true ↔ ShapeFold e s := by
  induction e with
  | scalar c => simp [ShapeCheck, ShapeFold]
  | tensor d n t => simp [ShapeCheck, ShapeFold]
  | unaryMap op e ih => simpa [ShapeCheck, ShapeFold] using ih
  | binaryMap op l r ihl ihr => simp [ShapeCheck, ShapeFold, ihl, ihr]

/-- Claim C8: the dot-expression overload of the engine forwards the
destination, the operands, the flags and the scale directly to the dot
engine's `Eval`, and raises no shape error and compiles no plan for any
input, shape-mismatched ones included. -/
theorem dot_exp_forwards_to_dot_engine {α : Type} [Zero α]
    (dst : Tensor2 α) (e : DotExp α) :
    (EvalDot dst e).1 =
      DotEngineCpu222Eval e.ltrans e.rtrans dst e.lhs_ e.rhs_ e.scale_ ∧
    (EvalDot dst e).2 = none :=
  ⟨rfl, rfl⟩

/-- Claim C9: plan evaluation is pure and deterministic — two plans over
pointwise-equal unchanged buffers evaluate to the same value at every
coordinate, and re-running the same `Eval` call with unchanged inputs
yields the identical destination outcome. -/
theorem plan_eval_pure_deterministic {α : Type} (p q : Plan α)
    (h : Plan.BufEq p q) (y x : Nat) (saver : α → α → α) (dst : Tensor2 α)
    (e : Expr α) :
    p.Eval y x = q.Eval y x ∧
    EvalMapper saver dst e = EvalMapper saver dst e := by
  refine ⟨?_, rfl⟩
  induction h generalizing y x with
  | tensor hd => exact hd _
  | scalar => rfl
  | unary hpq ih => simp [Plan.Eval, ih]
  | binary hl hr ihl ihr => simp [Plan.Eval, ihl, ihr]

/-- Witness for claim C9: two representations of the same buffer evaluate
equally at a concrete coordinate. -/
theorem plan_eval_pure_deterministic_witness :
    Plan.BufEq pW qW ∧
    (pW.Eval 1 2 = qW.Eval 1 2 ∧
      EvalMapper SaveTo dstW eW = EvalMapper SaveTo dstW eW) :=
  ⟨Plan.BufEq.tensor (fun i => by simp [pW, qW]),
    plan_eval_pure_deterministic pW qW
      (Plan.BufEq.tensor (fun i => by simp [pW, qW])) 1 2 SaveTo dstW eW⟩

/-- Claim C10: the container-kind path of the engine performs exactly the
same steps as the mapper-kind path on the corresponding bare-tensor
expression — same shape check, same failure, same compiled leaf plan, same
hand-off — so the two paths are behaviourally equivalent. -/
theorem container_path_eq_mapper_path {α : Type} (saver : α → α → α)
    (dst : Tensor2 α) (dev : Device) (dim : Nat) (t : Tensor2 α) :
    EvalContainer saver dst t =
      EvalMapper saver dst (Expr.tensor dev dim t) := rfl

end expr

end mshadow
